import Mathlib

/-!
Verification of the cursor/particle engine and view router of `src/src/Portfolio.tsx`.

Numbers (pointer coordinates, angles, distances) are modelled as exact
rationals `ℚ`; JavaScript's `Math.random()` calls are modelled as a stream
`rnd : ℕ → ℚ` of values in `[0, 1)`, consumed left to right; `Date.now()`
at a click is a natural-number millisecond timestamp `now`.
-/

/-- A click particle, as pushed by `handleClick` in `FancyCursor`
(`{ id: Date.now() + i, x: e.clientX, y: e.clientY, angle, dist }`). -/
structure Particle where
  id : ℕ
  x : ℚ
  y : ℚ
  angle : ℚ
  dist : ℚ
deriving DecidableEq

/-- `Math.PI` as the exact rational value of the IEEE-754 double `3.141592653589793…`. -/
def mathPI : ℚ := 884279719003555 / 281474976710656

/-- `const count = 10` — the fixed batch size in `handleClick`. -/
def count : ℕ := 10

/-- `setTimeout(..., 750)` — the fixed particle display duration in milliseconds. -/
def displayDurationMs : ℕ := 750

/-- The batch `created` built by the `for` loop of `handleClick`: for each
`i < count`, `angle = (Math.PI * 2 * i) / count + (Math.random() - 0.5) * 0.4`
and `dist = 36 + Math.random() * 28`.  Iteration `i` consumes the random
stream values `rnd (2*i)` (angle jitter) and `rnd (2*i+1)` (distance). -/
def mkBatch (x y : ℚ) (now : ℕ) (rnd : ℕ → ℚ) : List Particle :=
  (List.range count).map fun i =>
    { id := now + i
      x := x
      y := y
      angle := mathPI * 2 * i / count + (rnd (2 * i) - 0.5) * 0.4
      dist := 36 + rnd (2 * i + 1) * 28 }

/-- `handleClick`'s state update `setParticles((p) => [...p, ...created])`:
the new batch is appended to the live-particle list. -/
def handleClick (x y : ℚ) (now : ℕ) (rnd : ℕ → ℚ) (p : List Particle) : List Particle :=
  p ++ mkBatch x y now rnd

/-- The expiry update scheduled by `handleClick`:
`setParticles((p) => p.filter((pt) => !created.some((c) => c.id === pt.id)))` —
note it removes every live particle whose id matches some id of `created`,
not the `created` particles themselves. -/
def expireBatch (created p : List Particle) : List Particle :=
  p.filter fun pt => ! created.any fun c => c.id == pt.id

/-- JS `String.prototype.startsWith` on character lists. -/
def charsStartWith : List Char → List Char → Bool
  | [], _ => true
  | _ :: _, [] => false
  | pc :: ps, c :: cs => pc == c && charsStartWith ps cs

/-- Substring containment on character lists (scan every suffix). -/
def charsInclude (pat : List Char) : List Char → Bool
  | [] => pat.isEmpty
  | c :: cs => charsStartWith pat (c :: cs) || charsInclude pat cs

/-- JS `String.prototype.includes`. -/
def jsIncludes (s pat : String) : Bool :=
  charsInclude pat.toList s.toList

/-- The per-element test of `isDarkBg`:
`cls.includes("bg-black") || cls.includes("text-white") || cls.includes("bg-neutral-900")`. -/
def hasDarkMarker (cls : String) : Bool :=
  jsIncludes cls "bg-black" || jsIncludes cls "text-white" || jsIncludes cls "bg-neutral-900"

/-- `isDarkBg`: the `while (n)` walk up the ancestor chain, returning `true`
on the first class-list with a dark marker and `false` when the chain is
exhausted.  The chain is modelled as the list of class-list strings from the
element under the pointer up through its ancestors (empty when
`document.elementFromPoint` returns `null`). -/
def isDarkBg : List String → Bool
  | [] => false
  | cls :: ancestors => hasDarkMarker cls || isDarkBg ancestors

/-- The cursor state of `FancyCursor`: `pos` (split into `x`/`y`), `down`,
`isDark`.  (The spec's `PointerState.pressed` is `down` and
`overDarkSurface` is `isDark`.) -/
structure PointerState where
  x : ℚ
  y : ℚ
  down : Bool
  isDark : Bool
deriving DecidableEq

/-- The `mm` mousemove handler: `setPos({x: e.clientX, y: e.clientY})` and
`setIsDark(isDarkBg(document.elementFromPoint(...)))`, with the element
chain under the pointer passed in explicitly. -/
def mm (s : PointerState) (ex ey : ℚ) (chain : List String) : PointerState :=
  { s with x := ex, y := ey, isDark := isDarkBg chain }

/-- The pointer events consumed by `FancyCursor` (mousemove carries its
coordinates and the element chain under the pointer). -/
inductive CursorEvent where
  | move (x y : ℚ) (chain : List String)
  | mouseDown
  | mouseUp

/-- One event dispatch in `FancyCursor`: `mm`, `md` (`setDown(true)`), or
`mu` (`setDown(false)`). -/
def cursorStep (s : PointerState) : CursorEvent → PointerState
  | .move ex ey chain => mm s ex ey chain
  | .mouseDown => { s with down := true }
  | .mouseUp => { s with down := false }

/-- Processing a sequence of pointer events in arrival order. -/
def runCursor (s : PointerState) (evts : List CursorEvent) : PointerState :=
  evts.foldl cursorStep s

/-- The `page` discriminant of the route state: `"home" | "project"`. -/
inductive Page where
  | home
  | project
deriving DecidableEq

/-- The router state of `Portfolio`:
`useState<{ page: "home" | "project"; id?: string }>` — `id` is optional. -/
structure Route where
  page : Page
  id : Option String
deriving DecidableEq

/-- The initial route `{ page: "home" }` (no `id` field). -/
def initRoute : Route := { page := .home, id := none }

/-- `onOpen`: `setRoute({ page: "project", id })`.  Total: defined for every
id string, recognized or not. -/
def navigateToProject (projectId : String) (_r : Route) : Route :=
  { page := .project, id := some projectId }

/-- `onBack`: `setRoute({ page: "home" })` (no `id` field). -/
def navigateHome (_r : Route) : Route :=
  { page := .home, id := none }

/-- Reading the current route state (`route`). -/
def currentRoute (r : Route) : Route := r

/-- The two user actions that change the route: clicking a project card
(`onOpen(p.id)`) and pressing the back button (`onBack`). -/
inductive RouteEvent where
  | openProject (id : String)
  | back

/-- One route transition. -/
def routeStep (r : Route) : RouteEvent → Route
  | .openProject pid => navigateToProject pid r
  | .back => navigateHome r

/-- Processing a sequence of route events in arrival order. -/
def runRoute (r : Route) (evts : List RouteEvent) : Route :=
  evts.foldl routeStep r

/-- Per-project content as built by the `switch` in `ProjectPage`.  (The
spec's field names `bulletPoints`, `techDescription`, `screenshotPaths`
are the source's `bullets`, `tech`, `screens`.) -/
structure ProjectContent where
  title : String
  bullets : List String
  tech : String
  screens : List String
deriving DecidableEq

/-- The `default` branch of the `switch` in `ProjectPage`:
`{ title: "Проект", bullets: ["Описание скоро"], tech: "", screens: [] }`. -/
def defaultContent : ProjectContent :=
  { title := "Проект", bullets := ["Описание скоро"], tech := "", screens := [] }

/-- The `switch (id)` content lookup in `ProjectPage`. -/
def resolveContent (id : String) : ProjectContent :=
  if id = "crm" then
    { title := "Мини‑CRM для отдела продаж"
      bullets := ["Сделки: статусы, ответственные", "Воронка: стадии, конверсии",
        "Задачи: дедлайны, напоминания", "BI‑вью: прогноз и отчётность"]
      tech := "Excel + Python + Power BI"
      screens := ["/screens/crm1.png", "/screens/crm2.png"] }
  else if id = "game" then
    { title := "Игровой прототип (2D)"
      bullets := ["Экономика ресурсов", "ИИ врагов", "UI‑меню, туториал", "Метрики удержания"]
      tech := "Game Engine + JS/TS"
      screens := ["/screens/game1.png", "/screens/game2.gif"] }
  else if id = "etl" then
    { title := "ETL‑пайплайн данных"
      bullets := ["Парсинг CSV/HTTP", "Очистка pandas", "Витрина SQLite/Parquet", "Дашборды Power BI"]
      tech := "Python (pandas, requests)"
      screens := ["/screens/etl1.png"] }
  else
    defaultContent

/-- The placeholder content exactly as the specification document words it
(for comparison against the source's `defaultContent`). -/
def specPlaceholder : ProjectContent :=
  { title := "Project", bullets := ["Description coming soon"], tech := "", screens := [] }

/-- A concrete random stream (constantly `0`) used for witnesses. -/
def rnd0 : ℕ → ℚ := fun _ => 0

/-- A batch spawned at timestamp 0 (ids 0–9). -/
def batchA : List Particle := mkBatch 0 0 0 rnd0

/-- A batch spawned 5 ms after `batchA` (ids 5–14, overlapping `batchA`). -/
def batchB : List Particle := mkBatch 0 0 5 rnd0

/-- The first particle of a batch spawned at timestamp 100, i.e. 100 ms after
`batchA` (its id 100 is disjoint from `batchA`'s ids 0–9; its angle is
`0 + (0 - 0.5) * 0.4 = -0.2` and its distance `36 + 0 * 28 = 36`). -/
def pC : Particle := { id := 100, x := 0, y := 0, angle := -0.2, dist := 36 }

/-- C1: for every click at `(x, y)`, immediately after `handleClick` runs the
live-particle list gains exactly 10 new particles (the old ones kept), each
with origin `(x, y)`; the `i`-th particle of the batch has id `now + i`, an
angle within `±0.2` radians of `i·(2π/10)`, and a travel distance in
`[36, 64)` — given that every `Math.random()` value lies in `[0, 1)`. -/
theorem c1_click_spawns_batch (x y : ℚ) (now : ℕ) (rnd : ℕ → ℚ) (p : List Particle)
    (hr : ∀ k, 0 ≤ rnd k ∧ rnd k < 1) :
    (handleClick x y now rnd p).length = p.length + 10 ∧
    (∀ q ∈ p, q ∈ handleClick x y now rnd p) ∧
    (mkBatch x y now rnd).length = 10 ∧
    ∀ i, ∀ hi : i < (mkBatch x y now rnd).length,
      ((mkBatch x y now rnd).get ⟨i, hi⟩).id = now + i ∧
      ((mkBatch x y now rnd).get ⟨i, hi⟩).x = x ∧
      ((mkBatch x y now rnd).get ⟨i, hi⟩).y = y ∧
      |((mkBatch x y now rnd).get ⟨i, hi⟩).angle - mathPI * 2 * i / 10| ≤ 0.2 ∧
      36 ≤ ((mkBatch x y now rnd).get ⟨i, hi⟩).dist ∧
      ((mkBatch x y now rnd).get ⟨i, hi⟩).dist < 64 := by
  refine ⟨by simp [handleClick, mkBatch, count], fun q hq => List.mem_append_left _ hq,
    by simp [mkBatch, count], fun i hi => ?_⟩
  have hget : (mkBatch x y now rnd).get ⟨i, hi⟩ =
      { id := now + i
        x := x
        y := y
        angle := mathPI * 2 * i / count + (rnd (2 * i) - 0.5) * 0.4
        dist := 36 + rnd (2 * i + 1) * 28 } := by
    simp [mkBatch, List.get_eq_getElem]
  obtain ⟨h0, h1⟩ := hr (2 * i)
  obtain ⟨h2, h3⟩ := hr (2 * i + 1)
  rw [hget]
  refine ⟨rfl, rfl, rfl, ?_, by simp; nlinarith, by simp; nlinarith⟩
  simp only [count]
  rw [abs_le]
  constructor <;> [nlinarith; nlinarith]

/-- C1 witness: the constant-zero random stream satisfies the range
hypothesis, and a click at the origin on an empty live list yields length
`0 + 10`. -/
theorem c1_click_spawns_batch_witness :
    (∀ k, 0 ≤ rnd0 k ∧ rnd0 k < 1) ∧ (handleClick 0 0 0 rnd0 []).length = 0 + 10 :=
  ⟨fun _ => ⟨le_refl 0, zero_lt_one⟩,
    (c1_click_spawns_batch 0 0 0 rnd0 [] fun _ => ⟨le_refl 0, zero_lt_one⟩).1⟩

/-- C2 counterexample: batches do interact.  `batchB` is spawned 5 ms after
`batchA`, so their id ranges (0–9 and 5–14) overlap; when `batchA`'s
scheduled removal runs on the state `batchA ++ batchB`, it also deletes
`batchB`'s particles with ids 5–9: not every particle of `batchB` survives
`batchA`'s removal. -/
theorem c2_batch_removal_not_independent :
    ¬ ∀ q ∈ batchB, q ∈ expireBatch batchA (batchA ++ batchB) := by decide

/-- C2 (amended): when a batch's scheduled removal runs, a particle of the
live list survives if and only if its id differs from every id of the
removed batch.  In particular none of the batch's own particles remain, and
a particle whose id is outside the batch's id range (e.g. from a batch
spawned at least 10 ms apart) is unaffected. -/
theorem c2_removal_by_id (created p : List Particle) (pt : Particle) (hpt : pt ∈ p) :
    pt ∈ expireBatch created p ↔ ∀ c ∈ created, c.id ≠ pt.id := by
  simp [expireBatch, List.mem_filter, hpt, List.any_eq_true]

/-- C2 witness: the particle `pC` (id 100) lives alongside `batchA`
(ids 0–9); `pC` is in the state, and the survival criterion for `batchA`'s
removal is exactly id-disjointness from `batchA`. -/
theorem c2_removal_by_id_witness :
    pC ∈ pC :: batchA ∧
    (pC ∈ expireBatch batchA (pC :: batchA) ↔ ∀ c ∈ batchA, c.id ≠ pC.id) :=
  ⟨List.mem_cons_self _ _, c2_removal_by_id batchA (pC :: batchA) pC (List.mem_cons_self _ _)⟩

/-- C3 counterexample: the placeholder returned for an unrecognized id is not
the English-worded record the claim states (its title is `"Проект"`, not
`"Project"`, and its bullet is `"Описание скоро"`, not
`"Description coming soon"`). -/
theorem c3_placeholder_not_english : resolveContent "unknown-id" ≠ specPlaceholder := by decide

/-- C3 (amended): for every projectId other than `"crm"`, `"game"` and
`"etl"`, `resolveContent` returns exactly the source's placeholder content
`{ title := "Проект", bullets := ["Описание скоро"], tech := "",
screens := [] }` rather than failing. -/
theorem c3_unknown_id_default (pid : String)
    (h1 : pid ≠ "crm") (h2 : pid ≠ "game") (h3 : pid ≠ "etl") :
    resolveContent pid = defaultContent := by
  simp [resolveContent, h1, h2, h3]

/-- C3 witness: `"unknown-id"` is none of the three known ids, and it
resolves to the placeholder content. -/
theorem c3_unknown_id_default_witness :
    ("unknown-id" ≠ "crm") ∧ ("unknown-id" ≠ "game") ∧ ("unknown-id" ≠ "etl") ∧
    resolveContent "unknown-id" = defaultContent :=
  ⟨by decide, by decide, by decide,
    c3_unknown_id_default "unknown-id" (by decide) (by decide) (by decide)⟩

/-- The early-return `while` loop of `isDarkBg` computes `List.any` of the
per-element dark-marker test over the ancestor chain. -/
lemma isDarkBg_eq_any (chain : List String) : isDarkBg chain = chain.any hasDarkMarker := by
  induction chain <;> simp [isDarkBg, *]

/-- C4: after any pointer-move, the `isDark` flag (the spec's
`overDarkSurface`) is true if and only if some class-list string in the
ancestor chain of the element under the pointer carries a dark-surface
marker — regardless of the previous pointer state; in particular it is
false when no marker occurs anywhere in the walk. -/
theorem c4_dark_surface_detection (s : PointerState) (ex ey : ℚ) (chain : List String) :
    (mm s ex ey chain).isDark = true ↔ ∃ cls ∈ chain, hasDarkMarker cls = true := by
  simp [mm, isDarkBg_eq_any, List.any_eq_true]

/-- C5: `navigateToProject pid` always yields the route
`{ page := project, id := some pid }` for every id string (it is a total
function, so it never fails); `navigateToProject "crm"` followed by
`currentRoute` yields `{ page := project, id := some "crm" }`, and a
subsequent `navigateHome` yields the home route. -/
theorem c5_navigation (r : Route) (pid : String) :
    navigateToProject pid r = { page := .project, id := some pid } ∧
    currentRoute (navigateToProject "crm" r) = { page := .project, id := some "crm" } ∧
    currentRoute (navigateHome (currentRoute (navigateToProject "crm" r))) =
      { page := .home, id := none } :=
  ⟨rfl, rfl, rfl⟩

/-- C6: `resolveContent` on `"crm"`, `"game"` and `"etl"` returns three
pairwise distinct contents, each distinct from the placeholder, with a
non-empty title and at least one bullet point. -/
theorem c6_known_projects_content :
    resolveContent "crm" ≠ resolveContent "game" ∧
    resolveContent "crm" ≠ resolveContent "etl" ∧
    resolveContent "game" ≠ resolveContent "etl" ∧
    ∀ c ∈ [resolveContent "crm", resolveContent "game", resolveContent "etl"],
      c ≠ defaultContent ∧ c.title ≠ "" ∧ 1 ≤ c.bullets.length := by decide

/-- C7: after processing any event sequence whose last element is a
pointer-move to `(ex, ey)`, the pointer state's coordinates equal `(ex, ey)`
— the most recently received move wins. -/
theorem c7_pointer_last_write_wins (s : PointerState) (evts : List CursorEvent)
    (ex ey : ℚ) (chain : List String) :
    (runCursor s (evts ++ [CursorEvent.move ex ey chain])).x = ex ∧
    (runCursor s (evts ++ [CursorEvent.move ex ey chain])).y = ey := by
  simp [runCursor, List.foldl_append, cursorStep, mm]

/-- C8: in the two-state router, the back action transitions every route to
home (never to a previous project detail); every transition is a direct
replacement independent of the previous state; and with no user action the
route does not change. -/
theorem c8_back_always_home :
    (∀ r : Route, routeStep r RouteEvent.back = { page := .home, id := none }) ∧
    (∀ (r r' : Route) (e : RouteEvent), routeStep r e = routeStep r' e) ∧
    (∀ r : Route, runRoute r [] = r) := by
  refine ⟨fun r => rfl, fun r r' e => ?_, fun r => rfl⟩
  cases e <;> rfl

/-- Stepping preserves the invariant that a project route carries an id. -/
lemma runRoute_id_isSome (evts : List RouteEvent) :
    ∀ r : Route, (r.page = Page.project → r.id.isSome = true) →
      ((runRoute r evts).page = Page.project → (runRoute r evts).id.isSome = true) := by
  induction evts with
  | nil => exact fun r h => h
  | cons e rest ih =>
    intro r h
    cases e with
    | openProject pid => exact ih _ fun _ => rfl
    | back => exact ih _ fun hp => by simp [routeStep, navigateHome] at hp

/-- C9: starting from the initial home route, after any sequence of user
actions, whenever the route's page is `project` its `id` field is defined
(`isSome`), so the non-null dereference `route.id!` when rendering the
project view never meets an undefined value. -/
theorem c9_project_route_has_id (evts : List RouteEvent)
    (h : (runRoute initRoute evts).page = Page.project) :
    (runRoute initRoute evts).id.isSome = true :=
  runRoute_id_isSome evts initRoute (fun hp => by simp [initRoute] at hp) h

/-- C9 witness: after opening project `"crm"` the route's page is `project`,
and its id is defined. -/
theorem c9_project_route_has_id_witness :
    (runRoute initRoute [RouteEvent.openProject "crm"]).page = Page.project ∧
    (runRoute initRoute [RouteEvent.openProject "crm"]).id.isSome = true :=
  ⟨rfl, c9_project_route_has_id [RouteEvent.openProject "crm"] rfl⟩

/-- C10: within any single click's batch the ten particle ids `now + i` are
pairwise distinct, but ids are not unique across batches: two batches
spawned less than 10 milliseconds apart (here at timestamps 0 and 5) contain
particles with equal ids. -/
theorem c10_particle_ids (x y : ℚ) (now : ℕ) (rnd : ℕ → ℚ) :
    ((mkBatch x y now rnd).map Particle.id).Nodup ∧
    ∃ t1 t2 : ℕ, t1 < t2 ∧ t2 - t1 < 10 ∧
      ∃ q1 ∈ mkBatch 0 0 t1 rnd0, ∃ q2 ∈ mkBatch 0 0 t2 rnd0, q1.id = q2.id := by
  constructor
  · have hmap : (mkBatch x y now rnd).map Particle.id = (List.range count).map (now + ·) := by
      simp [mkBatch, List.map_map, Function.comp_def]
    rw [hmap]
    exact List.Nodup.map (fun a b h => by omega) (List.nodup_range count)
  · exact ⟨0, 5, by omega, by omega, by decide⟩
